import Mathlib

/-!
Shallow embedding of the Rugpull-Detector aggregation-and-scoring engine
(route handler and helpers in the analysis module). JavaScript numbers are
modelled as ℚ where values may be fractional (market data, percentages,
holder balances) and as ℕ where the source only ever produces non-negative
integers (impact points, risk scores, holder counts). Machine floats carry
no overflow in the ranges exercised here, so exact rationals are a faithful
model of the arithmetic performed.
-/

namespace RugpullDetector

/-- Severity levels of a risk factor, as the string union in the source. -/
inductive Severity where
  | low
  | medium
  | high
  | critical
deriving DecidableEq, Repr

/-- RiskFactor record: category, severity, description, impact. -/
structure RiskFactor where
  category : String
  severity : Severity
  description : String
  impact : ℕ
deriving DecidableEq, Repr

/-- TokenMetadata record. The source stores totalSupply as a decimal string
and later reads it through Number.parseFloat; we carry the parsed value
directly (0 for the "0" fallback). Every metadata object the system builds
has a non-empty totalSupply string (the fetch fallback substitutes "0"), so
the JavaScript string-truthiness guard on totalSupply is always satisfied
and is elided; the numeric-truthiness guard on decimals is kept explicitly
as a decimals-not-zero test where the source has it. -/
structure TokenMetadata where
  name : String
  symbol : String
  totalSupply : ℚ
  decimals : ℕ
  contractAddress : String
deriving DecidableEq, Repr

/-- MarketData record from the market provider. -/
structure MarketData where
  price : ℚ
  marketCap : ℚ
  volume24h : ℚ
  priceChange24h : ℚ
  circulatingSupply : ℚ
  totalSupplyMkt : ℚ
  maxSupply : Option ℚ
  ath : ℚ
  athChangePercentage : ℚ
  atl : ℚ
  atlChangePercentage : ℚ
deriving DecidableEq, Repr

/-- SecurityAnalysis record. -/
structure SecurityAnalysis where
  isVerified : Bool
  hasProxyContract : Bool
  hasMintFunction : Bool
  hasPauseFunction : Bool
  hasBlacklistFunction : Bool
  hasOwnershipRenounced : Bool
  rugPullRisk : ℕ
deriving DecidableEq, Repr

/-- HolderAnalysis record. -/
structure HolderAnalysis where
  totalHolders : ℕ
  top10HoldersPercentage : ℚ
  creatorPercentage : ℚ
  distributionScore : ℚ
deriving DecidableEq, Repr

/-- Risk level, as the five-string union in the source. -/
inductive RiskLevel where
  | veryLow
  | low
  | medium
  | high
  | veryHigh
deriving DecidableEq, Repr

/-- ComprehensiveAnalysis: the result object assembled by the route handler. -/
structure ComprehensiveAnalysis where
  tokenData : TokenMetadata
  marketData : Option MarketData
  securityAnalysis : SecurityAnalysis
  holderAnalysis : HolderAnalysis
  riskFactors : List RiskFactor
  overallRiskScore : ℕ
  riskLevel : RiskLevel
  recommendation : String
deriving DecidableEq, Repr

/-- ASCII lowercase of one character. The addresses the route handler
compares are validated hex strings (0x followed by 40 hex digits), on which
the toLowerCase of the source agrees with ASCII lowercasing. -/
def charLowerAscii (c : Char) : Char :=
  if 'A' ≤ c ∧ c ≤ 'Z' then Char.ofNat (c.toNat + 32) else c

/-- ASCII lowercase of a string, modelling toLowerCase on validated
addresses. -/
def toLowerAscii (s : String) : String :=
  ⟨s.data.map charLowerAscii⟩

/-- The fixed bluechip allowlist from the source (the WETH entry is written
mixed-case with a toLowerCase call applied, exactly as in the source). -/
def BLUECHIP_WHITELIST : List String :=
  [ "0xdac17f958d2ee523a2206206994597c13d831ec7"
  , "0xa0b86991c6218b36c1d19d4a2e9eb0ce3606eb48"
  , toLowerAscii "0xc02aaA39b223FE8D0A0e5C4F27eAD9083C756Cc2"
  , "0x514910771af9ca656af840dff83e8264ecf986ca" ]

/-- isBluechipToken: allowlist membership after lowercasing the address. -/
def isBluechipToken (address : String) : Bool :=
  BLUECHIP_WHITELIST.contains (toLowerAscii address)

/-- calculateOverallRiskScore: reduce over factor impacts, capped at 100. -/
def calculateOverallRiskScore (riskFactors : List RiskFactor) : ℕ :=
  let totalImpact := riskFactors.foldl (fun sum factor => sum + factor.impact) 0
  min totalImpact 100

/-- determineRiskLevel: the threshold chain of the source. -/
def determineRiskLevel (score : ℕ) : RiskLevel :=
  if score ≤ 10 then RiskLevel.veryLow
  else if score ≤ 25 then RiskLevel.low
  else if score ≤ 50 then RiskLevel.medium
  else if score ≤ 75 then RiskLevel.high
  else RiskLevel.veryHigh

/-- calculateRugPullRisk: additive flag scoring capped at 100. -/
def calculateRugPullRisk (security : SecurityAnalysis) : ℕ :=
  let risk : ℕ := 0
  let risk := if !security.isVerified then risk + 25 else risk
  let risk := if security.hasMintFunction then risk + 15 else risk
  let risk := if security.hasBlacklistFunction then risk + 25 else risk
  let risk := if security.hasPauseFunction then risk + 10 else risk
  let risk := if security.hasProxyContract then risk + 15 else risk
  let risk := if !security.hasOwnershipRenounced then risk + 10 else risk
  min risk 100

/-- Security section of identifyRiskFactorsFiltered (the object-truthiness
guard on the always-present securityAnalysis field is elided). -/
def securityRiskFactors (s : SecurityAnalysis) : List RiskFactor :=
  (if s.isVerified = false then
    [⟨"Security", Severity.high, "Contract source code is not verified on Etherscan", 25⟩]
   else []) ++
  (if s.hasMintFunction then
    [⟨"Security", Severity.medium, "Contract has mint function - supply can be increased", 15⟩]
   else []) ++
  (if s.hasBlacklistFunction then
    [⟨"Security", Severity.high, "Contract can blacklist addresses from trading", 25⟩]
   else []) ++
  (if s.hasPauseFunction then
    [⟨"Security", Severity.medium, "Contract can be paused, stopping all transfers", 15⟩]
   else []) ++
  (if s.hasProxyContract then
    [⟨"Security", Severity.medium, "Proxy contract - logic can be upgraded", 20⟩]
   else [])

/-- Market section of identifyRiskFactorsFiltered: fires only when
marketData is present (typeof-number guards always hold in the model). -/
def marketRiskFactors : Option MarketData → List RiskFactor
  | none => []
  | some m =>
    (if m.volume24h < 10000 then
      [⟨"Market", Severity.medium, "Very low trading volume (< $10,000 daily)", 15⟩]
     else []) ++
    (if m.marketCap < 100000 then
      [⟨"Market", Severity.medium, "Very low market cap (< $100,000)", 10⟩]
     else []) ++
    (if m.priceChange24h < -50 then
      [⟨"Market", Severity.high, "Severe price drop (>50%) in last 24 hours", 20⟩]
     else [])

/-- Holder-distribution section of identifyRiskFactorsFiltered: fires only
when totalHolders exceeds zero. -/
def holderRiskFactors (h : HolderAnalysis) : List RiskFactor :=
  if 0 < h.totalHolders then
    (if 80 < h.top10HoldersPercentage then
      [⟨"Distribution", Severity.high, "Top 10 holders control more than 80% of supply", 25⟩]
     else []) ++
    (if 50 < h.creatorPercentage then
      [⟨"Distribution", Severity.critical, "Creator/deployer holds more than 50% of total supply", 30⟩]
     else []) ++
    (if h.totalHolders < 100 then
      [⟨"Distribution", Severity.medium, "Very few token holders (< 100)", 10⟩]
     else [])
  else []

/-- Metadata section of identifyRiskFactorsFiltered. -/
def metadataRiskFactors (t : TokenMetadata) : List RiskFactor :=
  if t.name = "Unknown" ∨ t.symbol = "UNKNOWN" then
    [⟨"Metadata", Severity.medium, "Missing or invalid token name/symbol", 10⟩]
  else []

/-- Tokenomics section of identifyRiskFactorsFiltered. The source guards
with the truthiness of tokenData.totalSupply (a string, always non-empty by
construction, hence elided) and of tokenData.decimals (a number, falsy
exactly when zero, kept as decimals-not-zero). -/
def tokenomicsRiskFactors (t : TokenMetadata) : List RiskFactor :=
  if t.decimals ≠ 0 ∧ (1000000000000 : ℚ) < t.totalSupply / (10 : ℚ) ^ t.decimals then
    [⟨"Tokenomics", Severity.medium, "Extremely large total supply (>1 trillion tokens)", 15⟩]
  else []

/-- identifyRiskFactorsFiltered: the fixed evaluation order of the source
(Security, Market, Distribution, Metadata, Tokenomics), each section pushing
its factors in order. -/
def identifyRiskFactorsFiltered (analysis : ComprehensiveAnalysis) : List RiskFactor :=
  securityRiskFactors analysis.securityAnalysis ++
  marketRiskFactors analysis.marketData ++
  holderRiskFactors analysis.holderAnalysis ++
  metadataRiskFactors analysis.tokenData ++
  tokenomicsRiskFactors analysis.tokenData

/-- generateRecommendation: the top-down first-match cascade of the source. -/
def generateRecommendation (analysis : ComprehensiveAnalysis) : String :=
  let criticalRisks := analysis.riskFactors.filter (fun f => f.severity == Severity.critical)
  let highRisks := analysis.riskFactors.filter (fun f => f.severity == Severity.high)
  if 0 < criticalRisks.length then
    "❌ AVOID: This token has critical security issues. Do not invest."
  else if analysis.riskLevel = RiskLevel.veryHigh ∨ 3 ≤ highRisks.length then
    "🚨 HIGH RISK: This token has multiple serious red flags. Extreme caution advised."
  else if analysis.riskLevel = RiskLevel.high then
    "⚠️ CAUTION: This token has significant risks. Only invest what you can afford to lose."
  else if analysis.riskLevel = RiskLevel.medium then
    "📊 MODERATE: This token has some risks but may be acceptable for experienced investors."
  else if analysis.riskLevel = RiskLevel.low then
    "✅ LOW RISK: This token appears relatively safe but always DYOR."
  else
    "🌟 VERY LOW RISK: This token shows good fundamentals and security practices."

/-- getDefaultTokenData: placeholder metadata carrying the address. -/
def getDefaultTokenData (contractAddress : String) : TokenMetadata :=
  { name := "Unknown Token"
  , symbol := "UNKNOWN"
  , totalSupply := 0
  , decimals := 18
  , contractAddress := contractAddress }

/-- getDefaultSecurityAnalysis: the profile substituted when the security
adapter promise rejects. -/
def getDefaultSecurityAnalysis : SecurityAnalysis :=
  { isVerified := false
  , hasProxyContract := false
  , hasMintFunction := false
  , hasPauseFunction := false
  , hasBlacklistFunction := false
  , hasOwnershipRenounced := false
  , rugPullRisk := 50 }

/-- getDefaultHolderAnalysis: the profile substituted when holder data is
unavailable. -/
def getDefaultHolderAnalysis : HolderAnalysis :=
  { totalHolders := 0
  , top10HoldersPercentage := 100
  , creatorPercentage := 100
  , distributionScore := 0 }

/-- Outcome of one adapter promise as observed by Promise.allSettled. -/
inductive Settled (α : Type) where
  | fulfilled (value : α)
  | rejected
deriving DecidableEq, Repr

/-- Resolve a settled adapter result, substituting the default on rejection
(the status-fulfilled ternaries in the route handler). -/
def resolveOr {α : Type} : Settled α → α → α
  | Settled.fulfilled value, _ => value
  | Settled.rejected, default => default

/-- analyzeToken: the POST route handler after address validation, as a pure
function of the address and the four settled adapter results. The metadata
fetch performed in the bluechip branch (which always fulfills, its sub-calls
being individually recovered) is passed in as bluechipMetadata. -/
def analyzeToken (contractAddress : String) (bluechipMetadata : TokenMetadata)
    (tokenData : Settled TokenMetadata) (marketData : Settled (Option MarketData))
    (securityAnalysis : Settled SecurityAnalysis) (holderAnalysis : Settled HolderAnalysis) :
    ComprehensiveAnalysis :=
  if isBluechipToken contractAddress then
    { tokenData := bluechipMetadata
    , marketData := none
    , securityAnalysis := getDefaultSecurityAnalysis
    , holderAnalysis := getDefaultHolderAnalysis
    , riskFactors := []
    , overallRiskScore := 0
    , riskLevel := RiskLevel.veryLow
    , recommendation := "🌟 This is a well-known, established token. No major risks detected." }
  else
    let resolvedTokenData := resolveOr tokenData (getDefaultTokenData contractAddress)
    let resolvedMarketData := resolveOr marketData none
    let resolvedSecurityAnalysis := resolveOr securityAnalysis getDefaultSecurityAnalysis
    let resolvedHolderAnalysis := resolveOr holderAnalysis getDefaultHolderAnalysis
    let analysis : ComprehensiveAnalysis :=
      { tokenData := resolvedTokenData
      , marketData := resolvedMarketData
      , securityAnalysis := resolvedSecurityAnalysis
      , holderAnalysis := resolvedHolderAnalysis
      , riskFactors := []
      , overallRiskScore := 0
      , riskLevel := RiskLevel.medium
      , recommendation := "" }
    let riskFactors := identifyRiskFactorsFiltered analysis
    let overallRiskScore := calculateOverallRiskScore riskFactors
    let riskLevel := determineRiskLevel overallRiskScore
    let analysis :=
      { analysis with
          riskFactors := riskFactors
        , overallRiskScore := overallRiskScore
        , riskLevel := riskLevel }
    { analysis with recommendation := generateRecommendation analysis }

/-- The base result object literal the handler builds before filling in the
derived fields (riskFactors, score, level, recommendation). -/
def mkAnalysisBase (t : TokenMetadata) (m : Option MarketData)
    (s : SecurityAnalysis) (h : HolderAnalysis) : ComprehensiveAnalysis :=
  { tokenData := t
  , marketData := m
  , securityAnalysis := s
  , holderAnalysis := h
  , riskFactors := []
  , overallRiskScore := 0
  , riskLevel := RiskLevel.medium
  , recommendation := "" }

/-- Overall risk score derived from one aggregated four-part bundle. -/
def bundleScore (t : TokenMetadata) (m : Option MarketData)
    (s : SecurityAnalysis) (h : HolderAnalysis) : ℕ :=
  calculateOverallRiskScore (identifyRiskFactorsFiltered (mkAnalysisBase t m s h))

/-- Insertion into an ascending list of rationals. -/
def insertAsc (x : ℚ) : List ℚ → List ℚ
  | [] => [x]
  | y :: ys => if x ≤ y then x :: y :: ys else y :: insertAsc x ys

/-- Ascending sort by insertion; for a list of numbers this yields the same
list as the numeric-comparator sort in the source. -/
def sortAsc : List ℚ → List ℚ
  | [] => []
  | x :: xs => insertAsc x (sortAsc xs)

/-- Rank-weighted sum Σ i·x_i with ranks counted from the given start (the
loop in calculateDistributionScore accumulates (i+1)·x_i from i = 0). -/
def weightedSumFrom (i : ℕ) : List ℚ → ℚ
  | [] => 0
  | x :: xs => (i : ℚ) * x + weightedSumFrom (i + 1) xs

/-- calculateDistributionScore. The source receives holder rows and maps
them through Number.parseFloat on TokenHolderQuantity; the model takes the
list of parsed balances directly (the NaN filter therefore coincides with
the positivity filter on ℚ inputs). -/
def calculateDistributionScore (holders : List ℚ) (totalSupply : ℚ) : ℚ :=
  if holders.length = 0 ∨ totalSupply = 0 then 0
  else
    let sortedHoldings := sortAsc (holders.filter (fun amount => decide (0 < amount)))
    if sortedHoldings.length = 0 then 0
    else
      let sum := sortedHoldings.sum
      let weightedSum := weightedSumFrom 1 sortedHoldings
      if sum = 0 then 0
      else
        let n : ℚ := (sortedHoldings.length : ℚ)
        let gini := (2 * weightedSum) / (n * sum) - (n + 1) / n
        max 0 (min 100 ((1 - gini) * 100))

/-- Observable outcome of the security lookup inside performSecurityAnalysis:
the fetch (or body handling) threw; the HTTP response was not ok; the
response was ok with an empty SourceCode; or ok with source code whose five
regular-expression probes produced the given booleans. -/
inductive SecurityFetch where
  | failed
  | notOk
  | okEmpty
  | okCode (mint pause blacklist proxy renounced : Bool)
deriving DecidableEq, Repr

/-- performSecurityAnalysis as a function of the lookup outcome: the analysis
object starts all-false with rugPullRisk 0; on the non-throwing paths the
flags are set from the source-code probes and rugPullRisk is then computed
from the flags; when the lookup throws, the catch block returns the object
as it stands at that point (flags all false, rugPullRisk still 0). -/
def performSecurityAnalysis (outcome : SecurityFetch) : SecurityAnalysis :=
  let base : SecurityAnalysis :=
    { isVerified := false
    , hasProxyContract := false
    , hasMintFunction := false
    , hasPauseFunction := false
    , hasBlacklistFunction := false
    , hasOwnershipRenounced := false
    , rugPullRisk := 0 }
  match outcome with
  | SecurityFetch.failed => base
  | SecurityFetch.notOk => { base with rugPullRisk := calculateRugPullRisk base }
  | SecurityFetch.okEmpty => { base with rugPullRisk := calculateRugPullRisk base }
  | SecurityFetch.okCode mint pause blacklist proxy renounced =>
    let a : SecurityAnalysis :=
      { base with
          isVerified := true
        , hasMintFunction := mint
        , hasPauseFunction := pause
        , hasBlacklistFunction := blacklist
        , hasProxyContract := proxy
        , hasOwnershipRenounced := renounced }
    { a with rugPullRisk := calculateRugPullRisk a }

/-- Numeric rank of a risk level, for stating monotonicity (VeryLow is the
least severe, VeryHigh the most severe). -/
def RiskLevel.rank : RiskLevel → ℕ
  | RiskLevel.veryLow => 0
  | RiskLevel.low => 1
  | RiskLevel.medium => 2
  | RiskLevel.high => 3
  | RiskLevel.veryHigh => 4

/-- Modelled from the spec: the tier thresholds exactly as the claim words
them (inclusive upper bounds 10, 25, 50, 75). -/
def spec_riskLevel (s : ℕ) : RiskLevel :=
  if s ≤ 10 then RiskLevel.veryLow
  else if s ≤ 25 then RiskLevel.low
  else if s ≤ 50 then RiskLevel.medium
  else if s ≤ 75 then RiskLevel.high
  else RiskLevel.veryHigh

/-- Modelled from the spec: the recommendation cascade as the claim words it
(any critical factor, then tier VeryHigh or at least three high factors,
then tiers High, Medium, Low, else the very-low message). -/
def spec_recommendation (level : RiskLevel) (factors : List RiskFactor) : String :=
  if factors.any (fun f => f.severity == Severity.critical) then
    "❌ AVOID: This token has critical security issues. Do not invest."
  else if level = RiskLevel.veryHigh ∨
      3 ≤ factors.countP (fun f => f.severity == Severity.high) then
    "🚨 HIGH RISK: This token has multiple serious red flags. Extreme caution advised."
  else if level = RiskLevel.high then
    "⚠️ CAUTION: This token has significant risks. Only invest what you can afford to lose."
  else if level = RiskLevel.medium then
    "📊 MODERATE: This token has some risks but may be acceptable for experienced investors."
  else if level = RiskLevel.low then
    "✅ LOW RISK: This token appears relatively safe but always DYOR."
  else
    "🌟 VERY LOW RISK: This token shows good fundamentals and security practices."

/-- Modelled from the spec: the distribution score as the claim words it,
with the Gini formula taken over the FULL input list sorted ascending and n
the length of that full list; 0 on the degenerate inputs the claim lists. -/
def spec_distributionScore (holders : List ℚ) : ℚ :=
  if holders = [] ∨ (∀ x ∈ holders, x ≤ 0) ∨ holders.sum = 0 then 0
  else
    let s := sortAsc holders
    let n : ℚ := (holders.length : ℚ)
    let gini := (2 * weightedSumFrom 1 s) / (n * holders.sum) - (n + 1) / n
    max 0 (min 100 ((1 - gini) * 100))

/-- The amended distribution-score description: the Gini formula is taken
over the POSITIVE balances of the input (zeros dropped before ranking),
sorted ascending, with n the number of positive balances; the score is 0
when the input is empty, the supplied total is zero, or no balance is
positive. -/
def spec_distributionScoreAmended (holders : List ℚ) (totalSupply : ℚ) : ℚ :=
  if holders = [] ∨ totalSupply = 0 ∨
      holders.filter (fun amount => decide (0 < amount)) = [] then 0
  else
    let positives := holders.filter (fun amount => decide (0 < amount))
    let s := sortAsc positives
    let n : ℚ := (positives.length : ℚ)
    let gini := (2 * weightedSumFrom 1 s) / (n * s.sum) - (n + 1) / n
    max 0 (min 100 ((1 - gini) * 100))

/-- Clean metadata used in concrete bundles: real name and symbol, zero
recorded supply, 18 decimals. -/
def cleanMetadata : TokenMetadata :=
  { name := "Tether USD"
  , symbol := "USDT"
  , totalSupply := 0
  , decimals := 18
  , contractAddress := "0x0000000000000000000000000000000000000002" }

/-- Healthy holder profile used in concrete bundles. -/
def cleanHolders : HolderAnalysis :=
  { totalHolders := 5000
  , top10HoldersPercentage := 20
  , creatorPercentage := 2
  , distributionScore := 80 }

/-- A verified contract whose source nevertheless has mint, pause, blacklist
and proxy patterns (rugPullRisk 65 as the flag computation derives). -/
def riskySecurity : SecurityAnalysis :=
  { isVerified := true
  , hasProxyContract := true
  , hasMintFunction := true
  , hasPauseFunction := true
  , hasBlacklistFunction := true
  , hasOwnershipRenounced := true
  , rugPullRisk := 65 }

/-- Metadata of a zero-decimals token with two quadrillion raw units, whose
normalized supply 2e15 exceeds the 1e12 Tokenomics threshold. -/
def zeroDecimalsMetadata : TokenMetadata :=
  { name := "Mega"
  , symbol := "MEGA"
  , totalSupply := 2000000000000000
  , decimals := 0
  , contractAddress := "0x0000000000000000000000000000000000000001" }

/-- Folding impact points from an accumulator equals the accumulator plus
the sum of the mapped impacts. -/
theorem foldl_add_impact (fs : List RiskFactor) (a : ℕ) :
    fs.foldl (fun sum factor => sum + factor.impact) a =
      a + (fs.map RiskFactor.impact).sum := by
  induction fs generalizing a with
  | nil => simp
  | cons f fs ih =>
    rw [List.foldl_cons, ih, List.map_cons, List.sum_cons]
    omega

/-- C1: for every list of risk factors the overall risk score equals the sum
of the impact values capped at 100, and the result object produced by the
handler always carries exactly that function of its own factor list (both in
the bluechip branch, where 0 factors give score 0, and in the main branch,
where the score field is assigned from calculateOverallRiskScore). -/
theorem overallRiskScore_eq_min_sum_impacts :
    (∀ fs : List RiskFactor,
      calculateOverallRiskScore fs = min 100 ((fs.map RiskFactor.impact).sum)) ∧
    (∀ (addr : String) (meta : TokenMetadata) (t : Settled TokenMetadata)
        (m : Settled (Option MarketData)) (s : Settled SecurityAnalysis)
        (h : Settled HolderAnalysis),
      (analyzeToken addr meta t m s h).overallRiskScore =
        calculateOverallRiskScore (analyzeToken addr meta t m s h).riskFactors) := by
  constructor
  · intro fs
    unfold calculateOverallRiskScore
    rw [foldl_add_impact, Nat.zero_add, Nat.min_comm]
  · intro addr meta t m s h
    unfold analyzeToken
    split
    · rfl
    · rfl

/-- C2: the risk tier follows the inclusive thresholds 10, 25, 50, 75
exactly as the claim words them, and is monotonically non-decreasing in the
score. -/
theorem riskLevel_thresholds_and_monotone :
    (∀ s : ℕ, determineRiskLevel s = spec_riskLevel s) ∧
    (∀ s t : ℕ, s ≤ t →
      (determineRiskLevel s).rank ≤ (determineRiskLevel t).rank) := by
  constructor
  · intro s
    rfl
  · intro s t hst
    unfold determineRiskLevel
    split_ifs <;> simp only [RiskLevel.rank] <;> omega

/-- Witness for C2 at scores 30 and 60. -/
theorem riskLevel_thresholds_and_monotone_witness :
    (30 : ℕ) ≤ 60 ∧ (determineRiskLevel 30).rank ≤ (determineRiskLevel 60).rank :=
  ⟨by decide, riskLevel_thresholds_and_monotone.2 30 60 (by decide)⟩

/-- Inserting into a list adds one to its length. -/
theorem length_insertAsc (x : ℚ) (l : List ℚ) :
    (insertAsc x l).length = l.length + 1 := by
  induction l with
  | nil => rfl
  | cons y ys ih =>
    simp only [insertAsc]
    split
    · simp
    · simp [ih]

/-- Insertion sort preserves length. -/
theorem length_sortAsc (l : List ℚ) : (sortAsc l).length = l.length := by
  induction l with
  | nil => rfl
  | cons x xs ih => simp [sortAsc, length_insertAsc, ih]

/-- Inserting into a list adds the element to its sum. -/
theorem sum_insertAsc (x : ℚ) (l : List ℚ) : (insertAsc x l).sum = x + l.sum := by
  induction l with
  | nil => simp [insertAsc]
  | cons y ys ih =>
    simp only [insertAsc]
    split
    · simp
    · simp [ih]
      ring

/-- Insertion sort preserves the sum. -/
theorem sum_sortAsc (l : List ℚ) : (sortAsc l).sum = l.sum := by
  induction l with
  | nil => rfl
  | cons x xs ih => simp [sortAsc, sum_insertAsc, ih]

/-- C3: evaluation of the code at the failing input — a single holder owning
the full supply yields distribution score 100, not the claimed 0 (the rank
formula gives gini 0 for one holder, which the score map labels a perfect
distribution). -/
theorem distributionScore_single_holder_is_100 :
    calculateDistributionScore [1] 1 = 100 ∧ calculateDistributionScore [1] 1 ≠ 0 := by
  constructor
  · norm_num [calculateDistributionScore, sortAsc, insertAsc, weightedSumFrom, List.filter]
  · norm_num [calculateDistributionScore, sortAsc, insertAsc, weightedSumFrom, List.filter]

/-- Counterexample to C4 as stated: on the input [0, 1] the code drops the
zero before ranking and returns 100, while the claimed formula over the full
sorted list gives 50. -/
theorem distributionScore_full_list_counterexample :
    calculateDistributionScore [0, 1] 1 = 100 ∧
    spec_distributionScore [0, 1] = 50 ∧
    calculateDistributionScore [0, 1] 1 ≠ spec_distributionScore [0, 1] := by
  refine ⟨?_, ?_, ?_⟩
  · norm_num [calculateDistributionScore, sortAsc, insertAsc, weightedSumFrom, List.filter]
  · norm_num [spec_distributionScore, sortAsc, insertAsc, weightedSumFrom]
    simp
  · norm_num [calculateDistributionScore, spec_distributionScore, sortAsc, insertAsc,
      weightedSumFrom, List.filter]
    rw [if_neg (show ¬([0, 1] : List ℚ) = [] by simp)]
    norm_num

/-- C4 amended: the distribution score equals the clamped Gini map computed
over the positive balances of the input sorted ascending (with n the number
of positive balances), and is 0 when the input is empty, the supplied total
is zero, or no balance is positive. -/
theorem distributionScore_eq_amended_spec (holders : List ℚ) (totalSupply : ℚ) :
    calculateDistributionScore holders totalSupply =
      spec_distributionScoreAmended holders totalSupply := by
  have hposmem : ∀ x ∈ holders.filter (fun amount => decide (0 < amount)), 0 < x := by
    intro x hx
    have := List.of_mem_filter hx
    simpa using this
  by_cases hA : holders.length = 0 ∨ totalSupply = 0
  · have hD : holders = [] ∨ totalSupply = 0 ∨
        holders.filter (fun amount => decide (0 < amount)) = [] := by
      rcases hA with h | h
      · exact Or.inl (List.length_eq_zero.mp h)
      · exact Or.inr (Or.inl h)
    simp only [calculateDistributionScore, spec_distributionScoreAmended]
    rw [if_pos hA, if_pos hD]
  · have hlen : ¬ holders.length = 0 := fun h => hA (Or.inl h)
    have hts : ¬ totalSupply = 0 := fun h => hA (Or.inr h)
    by_cases hpos : holders.filter (fun amount => decide (0 < amount)) = []
    · have hB : (sortAsc (holders.filter (fun amount => decide (0 < amount)))).length = 0 := by
        rw [length_sortAsc, hpos]
        rfl
      have hD : holders = [] ∨ totalSupply = 0 ∨
          holders.filter (fun amount => decide (0 < amount)) = [] :=
        Or.inr (Or.inr hpos)
      simp only [calculateDistributionScore, spec_distributionScoreAmended]
      rw [if_neg hA, if_pos hB, if_pos hD]
    · have hBn : ¬ (sortAsc (holders.filter (fun amount => decide (0 < amount)))).length = 0 := by
        rw [length_sortAsc]
        simpa [List.length_eq_zero] using hpos
      have hsum : 0 < (sortAsc (holders.filter (fun amount => decide (0 < amount)))).sum := by
        rw [sum_sortAsc]
        exact List.sum_pos _ hposmem hpos
      have hCn : ¬ (sortAsc (holders.filter (fun amount => decide (0 < amount)))).sum = 0 :=
        ne_of_gt hsum
      have hDn : ¬ (holders = [] ∨ totalSupply = 0 ∨
          holders.filter (fun amount => decide (0 < amount)) = []) := by
        push_neg
        refine ⟨?_, hts, hpos⟩
        intro hh
        exact hlen (by simp [hh])
      simp only [calculateDistributionScore, spec_distributionScoreAmended]
      rw [if_neg hA, if_neg hBn, if_neg hCn, if_neg hDn, length_sortAsc]

/-- Counterexample to C5 as stated: the substituted default security profile
does NOT set the four dangerous capability flags to true — all four are
false. -/
theorem defaultSecurity_flags_not_pessimistic :
    getDefaultSecurityAnalysis.hasProxyContract ≠ true ∧
    getDefaultSecurityAnalysis.hasMintFunction ≠ true ∧
    getDefaultSecurityAnalysis.hasPauseFunction ≠ true ∧
    getDefaultSecurityAnalysis.hasBlacklistFunction ≠ true := by
  decide

/-- C5 amended: when the security adapter fails, the handler substitutes the
default profile, in which isVerified and hasOwnershipRenounced are false
(pessimistic) but hasProxyContract, hasMintFunction, hasPauseFunction and
hasBlacklistFunction are also false (the optimistic value), and rugPullRisk
is fixed at 50. -/
theorem defaultSecurity_substituted_flags (addr : String) (meta : TokenMetadata)
    (t : Settled TokenMetadata) (m : Settled (Option MarketData))
    (h : Settled HolderAnalysis) (hb : isBluechipToken addr = false) :
    (analyzeToken addr meta t m Settled.rejected h).securityAnalysis =
      getDefaultSecurityAnalysis ∧
    getDefaultSecurityAnalysis.isVerified = false ∧
    getDefaultSecurityAnalysis.hasOwnershipRenounced = false ∧
    getDefaultSecurityAnalysis.hasProxyContract = false ∧
    getDefaultSecurityAnalysis.hasMintFunction = false ∧
    getDefaultSecurityAnalysis.hasPauseFunction = false ∧
    getDefaultSecurityAnalysis.hasBlacklistFunction = false ∧
    getDefaultSecurityAnalysis.rugPullRisk = 50 := by
  refine ⟨?_, rfl, rfl, rfl, rfl, rfl, rfl, rfl⟩
  simp [analyzeToken, hb, resolveOr]

/-- Witness for C5 amended at the zero address. -/
theorem defaultSecurity_substituted_flags_witness :
    isBluechipToken "0x0000000000000000000000000000000000000000" = false ∧
    (analyzeToken "0x0000000000000000000000000000000000000000"
        (getDefaultTokenData "0x0000000000000000000000000000000000000000")
        Settled.rejected Settled.rejected Settled.rejected
        Settled.rejected).securityAnalysis = getDefaultSecurityAnalysis :=
  ⟨by decide,
   (defaultSecurity_substituted_flags "0x0000000000000000000000000000000000000000"
      (getDefaultTokenData "0x0000000000000000000000000000000000000000")
      Settled.rejected Settled.rejected Settled.rejected (by decide)).1⟩

/-- Counterexample to C6 as stated: with identical metadata, market and
holder data, replacing an actual security profile (verified, but with mint,
blacklist, pause and proxy capabilities) by the failure default LOWERS the
overall risk score from 75 to 25. -/
theorem default_substitution_lowers_score :
    bundleScore cleanMetadata none getDefaultSecurityAnalysis cleanHolders = 25 ∧
    bundleScore cleanMetadata none riskySecurity cleanHolders = 75 ∧
    bundleScore cleanMetadata none getDefaultSecurityAnalysis cleanHolders <
      bundleScore cleanMetadata none riskySecurity cleanHolders := by
  have hm : ¬("Tether USD" = "Unknown" ∨ "USDT" = "UNKNOWN") := by decide
  refine ⟨?_, ?_, ?_⟩ <;>
    norm_num [bundleScore, mkAnalysisBase, identifyRiskFactorsFiltered,
      securityRiskFactors, marketRiskFactors, holderRiskFactors,
      metadataRiskFactors, tokenomicsRiskFactors, cleanMetadata, cleanHolders,
      riskySecurity, getDefaultSecurityAnalysis, calculateOverallRiskScore, hm]

/-- C6 amended: each source's failure default yields a fixed factor
contribution independent of the data it replaces — the default security
profile fires exactly the 25-point not-verified factor, the null market
snapshot and the default holder profile fire no factors, and the default
metadata fires exactly the 10-point placeholder factor and no Tokenomics
factor; a default substitution therefore need not preserve or raise the
score. -/
theorem default_bundle_fixed_contribution (addr : String) :
    securityRiskFactors getDefaultSecurityAnalysis =
      [⟨"Security", Severity.high,
        "Contract source code is not verified on Etherscan", 25⟩] ∧
    marketRiskFactors none = [] ∧
    holderRiskFactors getDefaultHolderAnalysis = [] ∧
    metadataRiskFactors (getDefaultTokenData addr) =
      [⟨"Metadata", Severity.medium, "Missing or invalid token name/symbol", 10⟩] ∧
    tokenomicsRiskFactors (getDefaultTokenData addr) = [] := by
  refine ⟨?_, rfl, ?_, ?_, ?_⟩
  · simp [securityRiskFactors, getDefaultSecurityAnalysis]
  · simp [holderRiskFactors, getDefaultHolderAnalysis]
  · simp [metadataRiskFactors, getDefaultTokenData]
  · norm_num [tokenomicsRiskFactors, getDefaultTokenData]

/-- C7: an allowlisted address always yields the fixed short-circuit result
(tier VeryLow, score 0, no factors, the fixed recommendation), whatever the
four adapters settle to. -/
theorem bluechip_short_circuit_fixed_result (addr : String) (meta : TokenMetadata)
    (t : Settled TokenMetadata) (m : Settled (Option MarketData))
    (s : Settled SecurityAnalysis) (h : Settled HolderAnalysis)
    (hb : isBluechipToken addr = true) :
    (analyzeToken addr meta t m s h).riskLevel = RiskLevel.veryLow ∧
    (analyzeToken addr meta t m s h).overallRiskScore = 0 ∧
    (analyzeToken addr meta t m s h).riskFactors = [] ∧
    (analyzeToken addr meta t m s h).recommendation =
      "🌟 This is a well-known, established token. No major risks detected." := by
  simp [analyzeToken, hb]

/-- Witness for C7 at the allowlisted USDT address with arbitrary adapter
outcomes. -/
theorem bluechip_short_circuit_fixed_result_witness :
    isBluechipToken "0xdac17f958d2ee523a2206206994597c13d831ec7" = true ∧
    (analyzeToken "0xdac17f958d2ee523a2206206994597c13d831ec7"
        (getDefaultTokenData "0xdac17f958d2ee523a2206206994597c13d831ec7")
        Settled.rejected Settled.rejected Settled.rejected
        Settled.rejected).overallRiskScore = 0 :=
  ⟨by decide,
   (bluechip_short_circuit_fixed_result "0xdac17f958d2ee523a2206206994597c13d831ec7"
      (getDefaultTokenData "0xdac17f958d2ee523a2206206994597c13d831ec7")
      Settled.rejected Settled.rejected Settled.rejected Settled.rejected
      (by decide)).2.1⟩

/-- C8: the recommendation produced for every analysis object equals the
fixed top-down first-match cascade described by the claim. -/
theorem recommendation_matches_cascade (a : ComprehensiveAnalysis) :
    generateRecommendation a = spec_recommendation a.riskLevel a.riskFactors := by
  unfold generateRecommendation spec_recommendation
  have hc : (0 < (a.riskFactors.filter
      (fun f => f.severity == Severity.critical)).length) ↔
      (a.riskFactors.any (fun f => f.severity == Severity.critical) = true) := by
    rw [← List.countP_eq_length_filter, List.countP_pos_iff, List.any_eq_true]
  have hh : (3 ≤ (a.riskFactors.filter
      (fun f => f.severity == Severity.high)).length) ↔
      (3 ≤ a.riskFactors.countP (fun f => f.severity == Severity.high)) := by
    rw [← List.countP_eq_length_filter]
  simp only [hc, hh]

/-- C9: evaluation of the code at the failing input — a token with decimals
0 and normalized supply 2e15 (above the 1e12 threshold) fires NO Tokenomics
factor, because the truthiness guard on decimals treats 0 as missing. -/
theorem tokenomics_rule_skipped_when_decimals_zero :
    zeroDecimalsMetadata.decimals = 0 ∧
    (1000000000000 : ℚ) <
      zeroDecimalsMetadata.totalSupply / (10 : ℚ) ^ zeroDecimalsMetadata.decimals ∧
    tokenomicsRiskFactors zeroDecimalsMetadata = [] := by
  refine ⟨rfl, ?_, ?_⟩
  · norm_num [zeroDecimalsMetadata]
  · simp [tokenomicsRiskFactors, zeroDecimalsMetadata]

/-- Counterexample to C10 as stated: the default profile substituted on
whole-adapter failure carries rugPullRisk 50, while the rug-pull-risk
computation on its own flags gives 35. -/
theorem default_rugPullRisk_not_derived :
    calculateRugPullRisk getDefaultSecurityAnalysis = 35 ∧
    getDefaultSecurityAnalysis.rugPullRisk = 50 ∧
    getDefaultSecurityAnalysis.rugPullRisk ≠
      calculateRugPullRisk getDefaultSecurityAnalysis := by
  decide

/-- C10 amended: every profile performSecurityAnalysis produces on a lookup
that does not throw has rugPullRisk equal to the value derived from its own
flags; when the lookup throws, the profile is returned with rugPullRisk
still 0 (not the derived 35). -/
theorem rugPullRisk_derived_on_non_throwing_paths (o : SecurityFetch)
    (ho : o ≠ SecurityFetch.failed) :
    (performSecurityAnalysis o).rugPullRisk =
      calculateRugPullRisk (performSecurityAnalysis o) ∧
    (performSecurityAnalysis SecurityFetch.failed).rugPullRisk = 0 := by
  constructor
  · cases o with
    | failed => exact absurd rfl ho
    | notOk => rfl
    | okEmpty => rfl
    | okCode mint pause blacklist proxy renounced => rfl
  · rfl

/-- Witness for C10 amended at the response-not-ok outcome. -/
theorem rugPullRisk_derived_on_non_throwing_paths_witness :
    SecurityFetch.notOk ≠ SecurityFetch.failed ∧
    (performSecurityAnalysis SecurityFetch.notOk).rugPullRisk =
      calculateRugPullRisk (performSecurityAnalysis SecurityFetch.notOk) :=
  ⟨by decide,
   (rugPullRisk_derived_on_non_throwing_paths SecurityFetch.notOk (by decide)).1⟩

end RugpullDetector
